import Mathlib

/-!
Shallow embedding of the voucher ("cheque") lifecycle and balance-transfer
logic of `src/App.js` of bill-test-app-tg.

Modelling decisions, mirroring the source:
* Firestore collections become association lists kept in insertion order:
  `balances` models the per-user profile documents (`balance` field),
  `privateCheques` models `users/{uid}/cheques/{fullChequeId}` documents,
  `publicCheques` models `public/data/cheques/{fullChequeId}` documents.
* Amounts are `ℚ` (the JS numbers, with exact arithmetic; the float
  representation itself is outside this embedding).
* `setDoc` is `setEntry` (create or overwrite); `updateDoc` is `updateEntry`,
  which fails (`none`) when the document does not exist, mirroring
  Firestore's `updateDoc` throwing on a missing document.
* Each handler returns the resulting store state together with the
  user-facing error message it shows, `none` meaning the success path ran.
  Distinct Russian error messages in the source become distinct
  `ChequeError` constructors; any caught store exception becomes
  `storeError` (the generic "Ошибка ..." message).
* `changeBalance` has its own internal try/catch in the source, so a failed
  balance update is swallowed: the model returns the state unchanged in
  that case and the caller continues.
-/

/-- A cheque document's data fields, as written by `handleCreateCheque`
(`short_id`, `owner_id`, `amount`, `active`, `anonymous`; display-only
fields are omitted). `active = 1` is an ACTIVE voucher, `active = 0` a
finalized (redeemed or cancelled) one. -/
structure Cheque where
  short_id : String
  owner_id : String
  amount : ℚ
  active : Nat
  anonymous : Bool
deriving Repr, DecidableEq

/-- The persistent store: user balances, per-user private cheque documents
(keyed by owner id and full cheque id), and the public cheque collection
(keyed by full cheque id), each in document insertion order. -/
structure AppState where
  balances : List (String × ℚ)
  privateCheques : List ((String × String) × Cheque)
  publicCheques : List (String × Cheque)
deriving Repr, DecidableEq

/-- The distinct user-facing error messages of the source handlers. -/
inductive ChequeError where
  | invalidAmount
  | insufficientFunds
  | emptyCode
  | notFound
  | alreadyUsed
  | selfRedemption
  | storeError
deriving Repr, DecidableEq

/-- Look up a document by key in a collection (Firestore `getDoc`): the
first entry whose key matches, if any. -/
def lookupEntry {α β : Type} [BEq α] : List (α × β) → α → Option β
  | [], _ => none
  | p :: t, k => if p.1 == k then some p.2 else lookupEntry t k

/-- Create or overwrite a document (Firestore `setDoc`). -/
def setEntry {α β : Type} [BEq α] (l : List (α × β)) (k : α) (v : β) : List (α × β) :=
  if l.any (fun p => p.1 == k) then
    l.map (fun p => if p.1 == k then (p.1, v) else p)
  else
    l ++ [(k, v)]

/-- Update an existing document (Firestore `updateDoc`): fails with `none`
when the document does not exist, as `updateDoc` throws in that case. -/
def updateEntry {α β : Type} [BEq α] (l : List (α × β)) (k : α) (f : β → β) :
    Option (List (α × β)) :=
  if l.any (fun p => p.1 == k) then
    some (l.map (fun p => if p.1 == k then (p.1, f p.2) else p))
  else
    none

/-- The user's balance as read by the handlers (`userData.balance || 0`,
i.e. `0` when no profile document exists). -/
def getBalance (s : AppState) (u : String) : ℚ :=
  (lookupEntry s.balances u).getD 0

/-- `changeBalance` of App.js lines 132-144: writes
`balance := userBalance + amount` to the user's profile document. Its
internal try/catch swallows a failure (missing profile document), leaving
the store unchanged. -/
def changeBalance (s : AppState) (u : String) (amount : ℚ) : AppState :=
  match updateEntry s.balances u (fun b => b + amount) with
  | some bs => { s with balances := bs }
  | none => s

/-- Mark a cheque document inactive, as `updateDoc(ref, { active: 0 })`. -/
def deactivate (c : Cheque) : Cheque :=
  { c with active := 0 }

/-- `handleCreateCheque` of App.js lines 147-208 (the issue operation).
`amount` is the parsed `parseFloat(createAmount)` (a non-number input is
rejected by the same guard as a non-positive one); `chequeId` is the
`generateShortId()` outcome, passed in as a parameter since it is the
handler's only source of randomness. Order of effects as in the source:
debit the owner via `changeBalance(-amount)`, then `setDoc` the private
cheque document, then `setDoc` the public copy. -/
def handleCreateCheque (s : AppState) (userId : String) (amount : ℚ)
    (anonymous : Bool) (chequeId : String) : AppState × Option ChequeError :=
  if amount ≤ 0 then (s, some .invalidAmount)
  else if getBalance s userId < amount then (s, some .insufficientFunds)
  else
    let fullChequeId := userId ++ "-" ++ chequeId
    let c : Cheque := ⟨chequeId, userId, amount, 1, anonymous⟩
    let s1 := changeBalance s userId (-amount)
    let s2 := { s1 with privateCheques := setEntry s1.privateCheques (userId, fullChequeId) c }
    let s3 := { s2 with publicCheques := setEntry s2.publicCheques fullChequeId c }
    (s3, none)

/-- `handleActivateCheque` of App.js lines 211-286 (the redeem operation).
Queries the public collection for `short_id == code`, reports "Данного
чека не существует" (`notFound`) when the query is empty, scans the
results in order for the first document with `active === 1`, reports
"Данный чек был активирован или удалён" (`alreadyUsed`) when none is
active, rejects self-redemption, then deactivates the public document,
deactivates the sender's private document, and credits the redeemer via
`changeBalance(amount)`. A missing private document makes the second
`updateDoc` throw after the public one already committed: the outer catch
reports `storeError` with the public flip already applied. -/
def handleActivateCheque (s : AppState) (userId code : String) :
    AppState × Option ChequeError :=
  if code = "" then (s, some .emptyCode)
  else
    let results := s.publicCheques.filter (fun p => p.2.short_id == code)
    if results.isEmpty then (s, some .notFound)
    else
      match results.find? (fun p => p.2.active == 1) with
      | none => (s, some .alreadyUsed)
      | some (fullChequeId, chequeData) =>
        if chequeData.owner_id == userId then (s, some .selfRedemption)
        else
          let s1 := { s with publicCheques :=
            (updateEntry s.publicCheques fullChequeId deactivate).getD s.publicCheques }
          match updateEntry s1.privateCheques (chequeData.owner_id, fullChequeId) deactivate with
          | none => (s1, some .storeError)
          | some priv =>
            let s2 := { s1 with privateCheques := priv }
            (changeBalance s2 userId chequeData.amount, none)

/-- The confirmed branch of `handleDeleteCheque` of App.js lines 289-320
(the cancel operation). The caller supplies the cheque object from its
active-cheques snapshot; the handler uses only `cheque.id` (`chequeId`
here) and `cheque.amount`. It marks the caller's private document
inactive, marks the public document inactive, and credits the caller via
`changeBalance(cheque.amount)` — with no ownership check and no check
that the cheque is still active. A missing document makes `updateDoc`
throw; the catch reports the generic error (`storeError`). -/
def handleDeleteCheque (s : AppState) (userId chequeId : String) (amount : ℚ) :
    AppState × Option ChequeError :=
  match updateEntry s.privateCheques (userId, chequeId) deactivate with
  | none => (s, some .storeError)
  | some priv =>
    let s1 := { s with privateCheques := priv }
    match updateEntry s1.publicCheques chequeId deactivate with
    | none => (s1, some .storeError)
    | some pub =>
      let s2 := { s1 with publicCheques := pub }
      (changeBalance s2 userId amount, none)

/-- Profile creation on first identity sighting (App.js lines 57-66):
a fresh profile document with `balance: 0`; an existing profile is left
as is. -/
def newUserStep (s : AppState) (u : String) : AppState :=
  if (lookupEntry s.balances u).isSome then s
  else { s with balances := s.balances ++ [(u, 0)] }

/-- A user command as issuable from the UI. For `cancel` the UI passes a
cheque object taken from the user's own cheque subcollection snapshot, so
the amount credited is the stored cheque's amount. -/
inductive Op where
  | newUser (u : String)
  | issue (u : String) (amount : ℚ) (anonymous : Bool) (sid : String)
  | redeem (u : String) (code : String)
  | cancel (u : String) (chequeId : String)
deriving Repr

/-- Run one command against the store. A `cancel` whose cheque id is not
in the caller's own subcollection is a no-op at the store level (the
snapshot list could not have offered it, and `updateDoc` on the missing
document would throw before any write). -/
def runOp (s : AppState) (op : Op) : AppState :=
  match op with
  | .newUser u => newUserStep s u
  | .issue u a anon sid => (handleCreateCheque s u a anon sid).1
  | .redeem u code => (handleActivateCheque s u code).1
  | .cancel u cid =>
    match lookupEntry s.privateCheques (u, cid) with
    | some ch => (handleDeleteCheque s u cid ch.amount).1
    | none => s

/-- Run a sequence of commands. -/
def runOps (s : AppState) (ops : List Op) : AppState :=
  ops.foldl runOp s

/-- The store before any user has been seen. -/
def initState : AppState := ⟨[], [], []⟩

theorem lookupEntry_some_any {α β : Type} [BEq α] {l : List (α × β)} {k : α} {v : β}
    (h : lookupEntry l k = some v) : l.any (fun p => p.1 == k) = true := by
  induction l with
  | nil => simp [lookupEntry] at h
  | cons p t ih =>
    by_cases hpk : (p.1 == k) = true
    · simp [hpk]
    · rw [Bool.not_eq_true] at hpk
      simp only [lookupEntry, hpk, Bool.false_eq_true, if_false] at h
      simp [hpk, ih h]

theorem lookupEntry_none_any {α β : Type} [BEq α] {l : List (α × β)} {k : α}
    (h : lookupEntry l k = none) : l.any (fun p => p.1 == k) = false := by
  induction l with
  | nil => simp
  | cons p t ih =>
    by_cases hpk : (p.1 == k) = true
    · simp [lookupEntry, hpk] at h
    · rw [Bool.not_eq_true] at hpk
      simp only [lookupEntry, hpk, Bool.false_eq_true, if_false] at h
      simp [hpk, ih h]

theorem updateEntry_of_lookup_some {α β : Type} [BEq α] {l : List (α × β)} {k : α} {v : β}
    (f : β → β) (h : lookupEntry l k = some v) :
    updateEntry l k f = some (l.map (fun p => if p.1 == k then (p.1, f p.2) else p)) := by
  unfold updateEntry
  rw [if_pos (lookupEntry_some_any h)]

theorem updateEntry_of_lookup_none {α β : Type} [BEq α] {l : List (α × β)} {k : α}
    (f : β → β) (h : lookupEntry l k = none) : updateEntry l k f = none := by
  unfold updateEntry
  rw [if_neg]
  simp [lookupEntry_none_any h]

theorem setEntry_of_lookup_none {α β : Type} [BEq α] {l : List (α × β)} {k : α} (v : β)
    (h : lookupEntry l k = none) : setEntry l k v = l ++ [(k, v)] := by
  unfold setEntry
  rw [if_neg]
  simp [lookupEntry_none_any h]

theorem lookupEntry_map_update {α β : Type} [BEq α] {l : List (α × β)} {k : α} {v : β}
    (f : β → β) (h : lookupEntry l k = some v) :
    lookupEntry (l.map (fun p => if p.1 == k then (p.1, f p.2) else p)) k = some (f v) := by
  induction l with
  | nil => simp [lookupEntry] at h
  | cons p t ih =>
    by_cases hpk : (p.1 == k) = true
    · simp only [lookupEntry, hpk, if_true, Option.some.injEq] at h
      simp [lookupEntry, hpk, h]
    · rw [Bool.not_eq_true] at hpk
      simp only [lookupEntry, hpk, Bool.false_eq_true, if_false] at h
      simp [lookupEntry, hpk, ih h]

theorem lookupEntry_append_right {α β : Type} [BEq α] [LawfulBEq α]
    {l : List (α × β)} {k : α} (v : β) (h : lookupEntry l k = none) :
    lookupEntry (l ++ [(k, v)]) k = some v := by
  induction l with
  | nil => simp [lookupEntry]
  | cons p t ih =>
    by_cases hpk : (p.1 == k) = true
    · simp [lookupEntry, hpk] at h
    · rw [Bool.not_eq_true] at hpk
      simp only [lookupEntry, hpk, Bool.false_eq_true, if_false] at h
      simpa [lookupEntry, hpk] using ih h

theorem changeBalance_of_lookup_some {s : AppState} {u : String} {b : ℚ} (d : ℚ)
    (h : lookupEntry s.balances u = some b) :
    (changeBalance s u d).balances
      = s.balances.map (fun p => if p.1 == u then (p.1, p.2 + d) else p) := by
  unfold changeBalance
  rw [updateEntry_of_lookup_some _ h]

theorem changeBalance_lookup {s : AppState} {u : String} {b : ℚ} (d : ℚ)
    (h : lookupEntry s.balances u = some b) :
    lookupEntry (changeBalance s u d).balances u = some (b + d) := by
  rw [changeBalance_of_lookup_some d h]
  exact lookupEntry_map_update (fun x => x + d) h

theorem changeBalance_privateCheques (s : AppState) (u : String) (d : ℚ) :
    (changeBalance s u d).privateCheques = s.privateCheques := by
  unfold changeBalance
  cases updateEntry s.balances u (fun b => b + d) <;> rfl

theorem changeBalance_publicCheques (s : AppState) (u : String) (d : ℚ) :
    (changeBalance s u d).publicCheques = s.publicCheques := by
  unfold changeBalance
  cases updateEntry s.balances u (fun b => b + d) <;> rfl

example :
    (handleCreateCheque ⟨[("alice", 10)], [], []⟩ "alice" 4 false "abc").1.balances
      = [("alice", 6)] := by
  norm_num [handleCreateCheque, changeBalance, getBalance, lookupEntry, updateEntry, setEntry]

example :
    (handleCreateCheque ⟨[("alice", 10)], [], []⟩ "alice" 4 false "abc").1.publicCheques
      = [("alice-abc", ⟨"abc", "alice", 4, 1, false⟩)] := by
  norm_num [handleCreateCheque, changeBalance, getBalance, lookupEntry, updateEntry, setEntry]
  decide

/-- Ingredients for the issue success path: the guards pass exactly when
`0 < a` and `a ≤ balance`. -/
theorem handleCreateCheque_success_eq
    (s : AppState) (u : String) (a : ℚ) (anon : Bool) (sid : String) (b : ℚ)
    (hb : lookupEntry s.balances u = some b)
    (hpos : 0 < a) (hle : a ≤ b) :
    handleCreateCheque s u a anon sid =
      (let c : Cheque := ⟨sid, u, a, 1, anon⟩
       let s1 := changeBalance s u (-a)
       let s2 := { s1 with privateCheques := setEntry s1.privateCheques (u, u ++ "-" ++ sid) c }
       ({ s2 with publicCheques := setEntry s2.publicCheques (u ++ "-" ++ sid) c }, none)) := by
  have hbal : getBalance s u = b := by simp [getBalance, hb]
  have hg1 : ¬ (a ≤ 0) := not_le.mpr hpos
  have hg2 : ¬ (getBalance s u < a) := by rw [hbal]; exact not_lt.mpr hle
  unfold handleCreateCheque
  rw [if_neg hg1, if_neg hg2]

/-- C1: for every starting balance and every amount with
`0 < amount ≤ balance`, the issue operation (`handleCreateCheque`)
decreases the owner's balance by exactly that amount and creates exactly
one new voucher in the ACTIVE state (`active = 1`) carrying that amount:
the public collection and the owner's private collection each gain exactly
the one new document, all other documents unchanged. -/
theorem issue_debits_balance_and_creates_active_voucher
    (s : AppState) (u : String) (a : ℚ) (anon : Bool) (sid : String) (b : ℚ)
    (hb : lookupEntry s.balances u = some b)
    (hpos : 0 < a) (hle : a ≤ b)
    (hfreshPub : lookupEntry s.publicCheques (u ++ "-" ++ sid) = none)
    (hfreshPriv : lookupEntry s.privateCheques (u, u ++ "-" ++ sid) = none) :
    (handleCreateCheque s u a anon sid).2 = none ∧
    lookupEntry (handleCreateCheque s u a anon sid).1.balances u = some (b - a) ∧
    (handleCreateCheque s u a anon sid).1.publicCheques
      = s.publicCheques ++ [(u ++ "-" ++ sid, ⟨sid, u, a, 1, anon⟩)] ∧
    (handleCreateCheque s u a anon sid).1.privateCheques
      = s.privateCheques ++ [((u, u ++ "-" ++ sid), ⟨sid, u, a, 1, anon⟩)] := by
  rw [handleCreateCheque_success_eq s u a anon sid b hb hpos hle]
  dsimp only
  have hpriv1 : (changeBalance s u (-a)).privateCheques = s.privateCheques :=
    changeBalance_privateCheques s u (-a)
  have hpub1 : (changeBalance s u (-a)).publicCheques = s.publicCheques :=
    changeBalance_publicCheques s u (-a)
  refine ⟨rfl, ?_, ?_, ?_⟩
  · have h1 := changeBalance_lookup (-a) hb
    simpa [sub_eq_add_neg] using h1
  · rw [hpub1]
    exact setEntry_of_lookup_none _ hfreshPub
  · rw [hpriv1]
    exact setEntry_of_lookup_none _ hfreshPriv

/-- Witness for C1: alice with balance 10 issues a cheque for 4. -/
theorem issue_debits_balance_and_creates_active_voucher_witness :
    (handleCreateCheque ⟨[("alice", 10)], [], []⟩ "alice" 4 false "abc").2 = none ∧
    lookupEntry (handleCreateCheque ⟨[("alice", 10)], [], []⟩ "alice" 4 false "abc").1.balances
      "alice" = some (10 - 4) ∧
    (handleCreateCheque ⟨[("alice", 10)], [], []⟩ "alice" 4 false "abc").1.publicCheques
      = [] ++ [("alice" ++ "-" ++ "abc", ⟨"abc", "alice", 4, 1, false⟩)] ∧
    (handleCreateCheque ⟨[("alice", 10)], [], []⟩ "alice" 4 false "abc").1.privateCheques
      = [] ++ [(("alice", "alice" ++ "-" ++ "abc"), ⟨"abc", "alice", 4, 1, false⟩)] :=
  issue_debits_balance_and_creates_active_voucher ⟨[("alice", 10)], [], []⟩ "alice" 4 false "abc" 10
    (by simp [lookupEntry]) (by norm_num) (by norm_num) (by simp [lookupEntry]) (by simp [lookupEntry])

/-- C6: for every non-negative balance and every amount strictly greater
than that balance, the issue operation fails with the insufficient-funds
error and leaves the entire store unchanged (no debit, no voucher). -/
theorem issue_insufficient_funds_rejected
    (s : AppState) (u : String) (a : ℚ) (anon : Bool) (sid : String)
    (hb : 0 ≤ getBalance s u) (hgt : getBalance s u < a) :
    handleCreateCheque s u a anon sid = (s, some .insufficientFunds) := by
  have hg1 : ¬ (a ≤ 0) := not_le.mpr (lt_of_le_of_lt hb hgt)
  unfold handleCreateCheque
  rw [if_neg hg1, if_pos hgt]

/-- Witness for C6: alice with balance 5 tries to issue a cheque for 10. -/
theorem issue_insufficient_funds_rejected_witness :
    handleCreateCheque ⟨[("alice", 5)], [], []⟩ "alice" 10 false "abc"
      = (⟨[("alice", 5)], [], []⟩, some .insufficientFunds) :=
  issue_insufficient_funds_rejected ⟨[("alice", 5)], [], []⟩ "alice" 10 false "abc"
    (by norm_num [getBalance, lookupEntry]) (by norm_num [getBalance, lookupEntry])

theorem isEmpty_false_of_find?_some {α : Type} {p : α → Bool} {l : List α} {a : α}
    (h : l.find? p = some a) : l.isEmpty = false := by
  cases l with
  | nil => simp at h
  | cons x t => simp

theorem updateEntry_of_mem {α β : Type} [BEq α] [LawfulBEq α] {l : List (α × β)} {k : α} {v : β}
    (f : β → β) (hmem : (k, v) ∈ l) :
    updateEntry l k f = some (l.map (fun p => if p.1 == k then (p.1, f p.2) else p)) := by
  unfold updateEntry
  rw [if_pos (List.any_eq_true.mpr ⟨(k, v), hmem, by simp⟩)]

/-- The shape of the redeem success path: with a first ACTIVE query result
not owned by the redeemer and an existing private copy, the handler
deactivates the public and private documents of exactly that cheque and
credits the redeemer by its amount. -/
theorem handleActivateCheque_success_eq
    (s : AppState) (u code fid : String) (ch chp : Cheque)
    (hcode : code ≠ "")
    (hfind : (s.publicCheques.filter (fun p => p.2.short_id == code)).find?
        (fun p => p.2.active == 1) = some (fid, ch))
    (howner : ch.owner_id ≠ u)
    (hpriv : lookupEntry s.privateCheques (ch.owner_id, fid) = some chp) :
    handleActivateCheque s u code =
      (changeBalance
        { s with
          publicCheques := s.publicCheques.map
            (fun p => if p.1 == fid then (p.1, deactivate p.2) else p),
          privateCheques := s.privateCheques.map
            (fun p => if p.1 == (ch.owner_id, fid) then (p.1, deactivate p.2) else p) }
        u ch.amount, none) := by
  have hne := isEmpty_false_of_find?_some hfind
  have hmem : (fid, ch) ∈ s.publicCheques :=
    List.mem_of_mem_filter (List.mem_of_find?_eq_some hfind)
  have hbne : (ch.owner_id == u) = false := beq_eq_false_iff_ne.mpr howner
  have hpubupd := updateEntry_of_mem deactivate hmem
  simp only [handleActivateCheque, if_neg hcode, hne, Bool.false_eq_true, if_false,
    hfind, hbne, hpubupd, Option.getD_some]
  rw [updateEntry_of_lookup_some deactivate hpriv]

/-- C4: a redeem attempt on a code whose first ACTIVE match is the
caller's own voucher always fails with the self-redemption error and
leaves the entire store unchanged — the voucher stays ACTIVE and no
balance is credited. -/
theorem self_redemption_rejected
    (s : AppState) (u code fid : String) (ch : Cheque)
    (hcode : code ≠ "")
    (hfind : (s.publicCheques.filter (fun p => p.2.short_id == code)).find?
        (fun p => p.2.active == 1) = some (fid, ch))
    (howner : ch.owner_id = u) :
    handleActivateCheque s u code = (s, some .selfRedemption) := by
  have hne := isEmpty_false_of_find?_some hfind
  have hbeq : (ch.owner_id == u) = true := beq_iff_eq.mpr howner
  simp only [handleActivateCheque, if_neg hcode, hne, Bool.false_eq_true, if_false,
    hfind, hbeq, if_true]

/-- The scenario state shared by the redeem witnesses: alice holds an
ACTIVE cheque "abc" for 4, alice and bob have profiles. -/
def chequeActive : Cheque := ⟨"abc", "alice", 4, 1, false⟩

def stateWithActiveCheque : AppState :=
  ⟨[("alice", 6), ("bob", 5)],
   [(("alice", "alice-abc"), chequeActive)],
   [("alice-abc", chequeActive)]⟩

/-- Witness for C4: alice tries to redeem her own active cheque. -/
theorem self_redemption_rejected_witness :
    handleActivateCheque stateWithActiveCheque "alice" "abc"
      = (stateWithActiveCheque, some .selfRedemption) :=
  self_redemption_rejected stateWithActiveCheque "alice" "abc" "alice-abc" chequeActive
    (by decide) (by decide) (by decide)

/-- C2: redeeming a code that resolves to an ACTIVE voucher owned by
someone else succeeds in one step whose resulting state both flips that
voucher to the terminal state (`active = 0`, its other fields unchanged)
and credits the redeemer's balance by exactly the voucher's amount. The
found voucher is necessarily ACTIVE (`ch.active = 1`). -/
theorem redeem_transitions_voucher_and_credits_redeemer
    (s : AppState) (u code fid : String) (ch chp : Cheque) (b : ℚ)
    (hcode : code ≠ "")
    (hfind : (s.publicCheques.filter (fun p => p.2.short_id == code)).find?
        (fun p => p.2.active == 1) = some (fid, ch))
    (howner : ch.owner_id ≠ u)
    (hpriv : lookupEntry s.privateCheques (ch.owner_id, fid) = some chp)
    (hpub : lookupEntry s.publicCheques fid = some ch)
    (hb : lookupEntry s.balances u = some b) :
    ch.active = 1 ∧
    (handleActivateCheque s u code).2 = none ∧
    lookupEntry (handleActivateCheque s u code).1.publicCheques fid
      = some { ch with active := 0 } ∧
    lookupEntry (handleActivateCheque s u code).1.balances u = some (b + ch.amount) := by
  have hact : ch.active = 1 := by
    have := List.find?_some hfind
    simpa using this
  rw [handleActivateCheque_success_eq s u code fid ch chp hcode hfind howner hpriv]
  refine ⟨hact, rfl, ?_, ?_⟩
  · rw [changeBalance_publicCheques]
    exact lookupEntry_map_update deactivate hpub
  · exact changeBalance_lookup ch.amount hb

/-- Witness for C2: bob redeems alice's active cheque "abc" for 4. -/
theorem redeem_transitions_voucher_and_credits_redeemer_witness :
    chequeActive.active = 1 ∧
    (handleActivateCheque stateWithActiveCheque "bob" "abc").2 = none ∧
    lookupEntry (handleActivateCheque stateWithActiveCheque "bob" "abc").1.publicCheques
      "alice-abc" = some { chequeActive with active := 0 } ∧
    lookupEntry (handleActivateCheque stateWithActiveCheque "bob" "abc").1.balances "bob"
      = some (5 + chequeActive.amount) :=
  redeem_transitions_voucher_and_credits_redeemer stateWithActiveCheque "bob" "abc"
    "alice-abc" chequeActive chequeActive 5
    (by decide) (by decide) (by decide) (by decide) (by decide) (by decide)

/-- C10: when several stored public vouchers carry the same short code,
redeem scans the query results in store order and selects the first with
`active = 1` (the `find?` hypothesis), credits exactly that voucher's
amount, and the public collection afterwards is the pointwise update that
deactivates only the document with that full id — every public document
with a different id, in particular every other voucher sharing the code,
is unchanged. -/
theorem redeem_selects_first_active_and_touches_only_it
    (s : AppState) (u code fid : String) (ch chp : Cheque) (b : ℚ)
    (hcode : code ≠ "")
    (hfind : (s.publicCheques.filter (fun p => p.2.short_id == code)).find?
        (fun p => p.2.active == 1) = some (fid, ch))
    (howner : ch.owner_id ≠ u)
    (hpriv : lookupEntry s.privateCheques (ch.owner_id, fid) = some chp)
    (hb : lookupEntry s.balances u = some b) :
    (handleActivateCheque s u code).2 = none ∧
    lookupEntry (handleActivateCheque s u code).1.balances u = some (b + ch.amount) ∧
    (handleActivateCheque s u code).1.publicCheques
      = s.publicCheques.map (fun p => if p.1 == fid then (p.1, deactivate p.2) else p) ∧
    ∀ p ∈ s.publicCheques, p.1 ≠ fid → p ∈ (handleActivateCheque s u code).1.publicCheques := by
  rw [handleActivateCheque_success_eq s u code fid ch chp hcode hfind howner hpriv]
  have hmap : (changeBalance
      { s with
        publicCheques := s.publicCheques.map
          (fun p => if p.1 == fid then (p.1, deactivate p.2) else p),
        privateCheques := s.privateCheques.map
          (fun p => if p.1 == (ch.owner_id, fid) then (p.1, deactivate p.2) else p) }
      u ch.amount).publicCheques
      = s.publicCheques.map (fun p => if p.1 == fid then (p.1, deactivate p.2) else p) := by
    rw [changeBalance_publicCheques]
  refine ⟨rfl, changeBalance_lookup ch.amount hb, hmap, ?_⟩
  intro p hp hpne
  have hbne : (p.1 == fid) = false := beq_eq_false_iff_ne.mpr hpne
  rw [hmap]
  exact List.mem_map.mpr ⟨p, hp, by rw [hbne]; simp⟩

/-- The scenario state for the C10 witness: two public vouchers share the
short code "abc"; alice's, first in store order, is already inactive, so
the scan selects carol's. -/
def chequeInactiveAlice : Cheque := ⟨"abc", "alice", 3, 0, false⟩

def chequeActiveCarol : Cheque := ⟨"abc", "carol", 7, 1, false⟩

def stateWithCollidingCodes : AppState :=
  ⟨[("bob", 5), ("carol", 0)],
   [(("carol", "carol-abc"), chequeActiveCarol)],
   [("alice-abc", chequeInactiveAlice), ("carol-abc", chequeActiveCarol)]⟩

/-- Witness for C10: bob redeems "abc"; the first active match is
carol's voucher, the only one deactivated. -/
theorem redeem_selects_first_active_and_touches_only_it_witness :
    (handleActivateCheque stateWithCollidingCodes "bob" "abc").2 = none ∧
    lookupEntry (handleActivateCheque stateWithCollidingCodes "bob" "abc").1.balances "bob"
      = some (5 + chequeActiveCarol.amount) ∧
    (handleActivateCheque stateWithCollidingCodes "bob" "abc").1.publicCheques
      = stateWithCollidingCodes.publicCheques.map
          (fun p => if p.1 == "carol-abc" then (p.1, deactivate p.2) else p) ∧
    ∀ p ∈ stateWithCollidingCodes.publicCheques, p.1 ≠ "carol-abc" →
      p ∈ (handleActivateCheque stateWithCollidingCodes "bob" "abc").1.publicCheques :=
  redeem_selects_first_active_and_touches_only_it stateWithCollidingCodes "bob" "abc"
    "carol-abc" chequeActiveCarol chequeActiveCarol 5
    (by decide) (by decide) (by decide) (by decide) (by decide)

/-- The scenario state for C3: alice's cheque "aaa" exists but is already
finalized (`active = 0`); no cheque with code "zzz" exists. -/
def stateWithFinalizedCheque : AppState :=
  ⟨[("alice", 0), ("bob", 5)],
   [(("alice", "alice-aaa"), ⟨"aaa", "alice", 3, 0, false⟩)],
   [("alice-aaa", ⟨"aaa", "alice", 3, 0, false⟩)]⟩

/-- Counterexample to C3: the outcome is not identical across the three
cases — a code that never existed produces the "does not exist" error
(`notFound`), while an already-finalized code produces the distinct
"was activated or deleted" error (`alreadyUsed`), so the caller can
distinguish never-existed from finalized. -/
theorem redeem_error_distinguishes_unknown_code :
    (handleActivateCheque stateWithFinalizedCheque "bob" "zzz").2 = some .notFound ∧
    (handleActivateCheque stateWithFinalizedCheque "bob" "aaa").2 = some .alreadyUsed ∧
    ChequeError.notFound ≠ ChequeError.alreadyUsed := by
  refine ⟨?_, ?_, by decide⟩ <;> decide

/-- C3 (amended): a non-empty code with no stored voucher fails with the
"does not exist" error (`notFound`); a non-empty code whose stored
vouchers are all finalized fails with the distinct "was activated or
deleted" error (`alreadyUsed`); in both cases the store is unchanged.
Already-redeemed and already-cancelled vouchers are stored identically
(`active = 0`), so those two cases remain mutually indistinguishable, but
a never-existed code is distinguishable from a finalized one. -/
theorem redeem_unknown_vs_finalized_errors (s : AppState) (u code : String)
    (hcode : code ≠ "") :
    (s.publicCheques.filter (fun p => p.2.short_id == code) = [] →
      handleActivateCheque s u code = (s, some .notFound)) ∧
    ((s.publicCheques.filter (fun p => p.2.short_id == code)).find?
        (fun p => p.2.active == 1) = none →
      s.publicCheques.filter (fun p => p.2.short_id == code) ≠ [] →
      handleActivateCheque s u code = (s, some .alreadyUsed)) := by
  constructor
  · intro hempty
    simp only [handleActivateCheque, if_neg hcode, hempty, List.isEmpty_nil, if_true]
  · intro hnone hne
    have hie : (s.publicCheques.filter (fun p => p.2.short_id == code)).isEmpty = false := by
      cases hl : s.publicCheques.filter (fun p => p.2.short_id == code) with
      | nil => exact absurd hl hne
      | cons a t => simp
    simp only [handleActivateCheque, if_neg hcode, hie, Bool.false_eq_true, if_false, hnone]

/-- Witness for the amended C3 at the concrete scenario state. -/
theorem redeem_unknown_vs_finalized_errors_witness :
    (stateWithFinalizedCheque.publicCheques.filter (fun p => p.2.short_id == "zzz") = [] →
      handleActivateCheque stateWithFinalizedCheque "bob" "zzz"
        = (stateWithFinalizedCheque, some .notFound)) ∧
    ((stateWithFinalizedCheque.publicCheques.filter (fun p => p.2.short_id == "zzz")).find?
        (fun p => p.2.active == 1) = none →
      stateWithFinalizedCheque.publicCheques.filter (fun p => p.2.short_id == "zzz") ≠ [] →
      handleActivateCheque stateWithFinalizedCheque "bob" "zzz"
        = (stateWithFinalizedCheque, some .alreadyUsed)) :=
  redeem_unknown_vs_finalized_errors stateWithFinalizedCheque "bob" "zzz" (by decide)

/-- The C5 failing input: alice's cheque "alice-aaa" for 5 is already
finalized (`active = 0`, e.g. it was redeemed); alice's balance is 10. -/
def stateWithRedeemedCheque : AppState :=
  ⟨[("alice", 10), ("bob", 5)],
   [(("alice", "alice-aaa"), ⟨"aaa", "alice", 5, 0, false⟩)],
   [("alice-aaa", ⟨"aaa", "alice", 5, 0, false⟩)]⟩

/-- C5 is violated by the code: `handleDeleteCheque` checks neither
ownership nor the ACTIVE state. Cancel by the owner on an
already-finalized voucher does not fail with an already-finalized error:
it succeeds and credits the owner the amount a second time (double
refund), balance 10 becoming 15. Cancel by a non-owner fails only with
the generic store error of the missing private document, not a dedicated
not-owner error (the store is unchanged in that case). -/
theorem cancel_missing_checks_double_credit :
    (handleDeleteCheque stateWithRedeemedCheque "alice" "alice-aaa" 5).2 = none ∧
    lookupEntry (handleDeleteCheque stateWithRedeemedCheque "alice" "alice-aaa" 5).1.balances
      "alice" = some 15 ∧
    handleDeleteCheque stateWithRedeemedCheque "bob" "alice-aaa" 5
      = (stateWithRedeemedCheque, some .storeError) := by
  refine ⟨by decide, ?_, by decide⟩
  norm_num [handleDeleteCheque, stateWithRedeemedCheque, updateEntry, changeBalance,
    lookupEntry, deactivate]

/-- The C8 scenario: alice already has an ACTIVE public voucher with
short code "cc"; bob has balance 10. -/
def stateBeforeCollision : AppState :=
  ⟨[("alice", 0), ("bob", 10)],
   [(("alice", "alice-cc"), ⟨"cc", "alice", 3, 1, false⟩)],
   [("alice-cc", ⟨"cc", "alice", 3, 1, false⟩)]⟩

/-- Counterexample to C8: when bob's issue generates the short code "cc"
that collides with alice's existing ACTIVE voucher, the operation does
not retry and does not fail closed: it succeeds (no code-generation
error exists in the code at all) and commits a second ACTIVE voucher
with the colliding code, leaving two ACTIVE vouchers sharing "cc". -/
theorem issue_commits_colliding_code :
    (handleCreateCheque stateBeforeCollision "bob" 2 false "cc").2 = none ∧
    ((handleCreateCheque stateBeforeCollision "bob" 2 false "cc").1.publicCheques.filter
        (fun p => p.2.short_id == "cc" && p.2.active == 1)).length = 2 := by
  constructor <;> decide

/-- C8 (amended): issue performs no public-code collision detection: for
any valid amount it succeeds unconditionally with the generated code, and
the number of ACTIVE public vouchers carrying that short code grows by
exactly one — even when it was already nonzero, i.e. a colliding code is
committed rather than regenerated or rejected. -/
theorem issue_no_collision_detection
    (s : AppState) (u : String) (a : ℚ) (anon : Bool) (sid : String) (b : ℚ)
    (hb : lookupEntry s.balances u = some b) (hpos : 0 < a) (hle : a ≤ b)
    (hfresh : lookupEntry s.publicCheques (u ++ "-" ++ sid) = none) :
    (handleCreateCheque s u a anon sid).2 = none ∧
    ((handleCreateCheque s u a anon sid).1.publicCheques.filter
        (fun p => p.2.short_id == sid && p.2.active == 1)).length
      = (s.publicCheques.filter
          (fun p => p.2.short_id == sid && p.2.active == 1)).length + 1 := by
  rw [handleCreateCheque_success_eq s u a anon sid b hb hpos hle]
  dsimp only
  refine ⟨rfl, ?_⟩
  rw [changeBalance_publicCheques]
  rw [setEntry_of_lookup_none _ hfresh]
  rw [List.filter_append]
  simp

/-- Witness for the amended C8 at the collision scenario: bob issues with
the already-taken code "cc". -/
theorem issue_no_collision_detection_witness :
    (handleCreateCheque stateBeforeCollision "bob" 2 false "cc").2 = none ∧
    ((handleCreateCheque stateBeforeCollision "bob" 2 false "cc").1.publicCheques.filter
        (fun p => p.2.short_id == "cc" && p.2.active == 1)).length
      = ((stateBeforeCollision.publicCheques.filter
          (fun p => p.2.short_id == "cc" && p.2.active == 1)).length) + 1 :=
  issue_no_collision_detection stateBeforeCollision "bob" 2 false "cc" 10
    (by decide) (by norm_num) (by norm_num) (by decide)

/-- The store invariant: every balance is non-negative, every stored
cheque (private and public) carries a positive amount, and profile
documents have distinct keys (Firestore documents are keyed). -/
def StoreInv (s : AppState) : Prop :=
  (∀ p ∈ s.balances, 0 ≤ p.2) ∧
  (∀ p ∈ s.privateCheques, 0 < p.2.amount) ∧
  (∀ p ∈ s.publicCheques, 0 < p.2.amount) ∧
  (s.balances.map Prod.fst).Nodup

theorem mem_of_lookupEntry_some {α β : Type} [BEq α] [LawfulBEq α]
    {l : List (α × β)} {k : α} {v : β}
    (h : lookupEntry l k = some v) : (k, v) ∈ l := by
  induction l with
  | nil => simp [lookupEntry] at h
  | cons p t ih =>
    obtain ⟨pk, pv⟩ := p
    by_cases hpk : (pk == k) = true
    · simp only [lookupEntry, hpk, if_true, Option.some.injEq] at h
      have hk : pk = k := eq_of_beq hpk
      rw [List.mem_cons]
      left
      rw [hk, h]
    · rw [Bool.not_eq_true] at hpk
      simp only [lookupEntry, hpk, Bool.false_eq_true, if_false] at h
      exact List.mem_cons_of_mem _ (ih h)

theorem lookupEntry_eq_of_mem_nodup {α β : Type} [BEq α] [LawfulBEq α]
    {l : List (α × β)} {k : α} {v : β}
    (hnd : (l.map Prod.fst).Nodup) (hmem : (k, v) ∈ l) :
    lookupEntry l k = some v := by
  induction l with
  | nil => simp at hmem
  | cons p t ih =>
    rw [List.map_cons, List.nodup_cons] at hnd
    rcases List.mem_cons.mp hmem with h | h
    · rw [← h]
      simp [lookupEntry]
    · have hne : p.1 ≠ k := by
        intro he
        exact hnd.1 (he ▸ List.mem_map.mpr ⟨(k, v), h, rfl⟩)
      have hbne : (p.1 == k) = false := beq_eq_false_iff_ne.mpr hne
      simp only [lookupEntry, hbne, Bool.false_eq_true, if_false]
      exact ih hnd.2 h

theorem not_mem_keys_of_lookupEntry_none {α β : Type} [BEq α] [LawfulBEq α]
    {l : List (α × β)} {k : α}
    (h : lookupEntry l k = none) : k ∉ l.map Prod.fst := by
  induction l with
  | nil => simp
  | cons p t ih =>
    by_cases hpk : (p.1 == k) = true
    · simp [lookupEntry, hpk] at h
    · rw [Bool.not_eq_true] at hpk
      simp only [lookupEntry, hpk, Bool.false_eq_true, if_false] at h
      have hne : p.1 ≠ k := fun he => by simp [he] at hpk
      simp only [List.map_cons, List.mem_cons]
      rintro (he | hm)
      · exact hne he.symm
      · exact ih h hm

theorem mem_setEntry {α β : Type} [BEq α] {l : List (α × β)} {k : α} {v : β} {q : α × β}
    (hq : q ∈ setEntry l k v) : q ∈ l ∨ q.2 = v := by
  unfold setEntry at hq
  split at hq
  · rcases List.mem_map.mp hq with ⟨p, hp, hpe⟩
    by_cases hpk : (p.1 == k) = true
    · right; rw [← hpe, if_pos hpk]
    · left; rw [← hpe, if_neg hpk]; exact hp
  · rcases List.mem_append.mp hq with h | h
    · exact Or.inl h
    · right
      simp only [List.mem_singleton] at h
      rw [h]

theorem mem_updateEntry {α β : Type} [BEq α] {l l2 : List (α × β)} {k : α} {f : β → β}
    {q : α × β} (hup : updateEntry l k f = some l2) (hq : q ∈ l2) :
    q ∈ l ∨ ∃ p ∈ l, q = (p.1, f p.2) := by
  unfold updateEntry at hup
  split at hup
  · cases hup
    rcases List.mem_map.mp hq with ⟨p, hp, hpe⟩
    by_cases hpk : (p.1 == k) = true
    · right; exact ⟨p, hp, by rw [← hpe, if_pos hpk]⟩
    · left; rw [← hpe, if_neg hpk]; exact hp
  · cases hup

theorem changeBalance_balances_cases (s : AppState) (u : String) (d : ℚ) :
    (changeBalance s u d).balances = s.balances ∨
    (changeBalance s u d).balances
      = s.balances.map (fun p => if p.1 == u then (p.1, p.2 + d) else p) := by
  unfold changeBalance updateEntry
  by_cases hany : (s.balances.any (fun p => p.1 == u)) = true
  · right; simp [hany]
  · left
    rw [Bool.not_eq_true] at hany
    simp [hany]

theorem changeBalance_keys (s : AppState) (u : String) (d : ℚ) :
    (changeBalance s u d).balances.map Prod.fst = s.balances.map Prod.fst := by
  rcases changeBalance_balances_cases s u d with he | he <;> rw [he]
  rw [List.map_map]
  apply List.map_congr_left
  intro p _
  by_cases hpu : p.1 = u <;> simp [hpu]

theorem storeInv_changeBalance_credit (s : AppState) (u : String) (d : ℚ)
    (hd : 0 ≤ d) (h : StoreInv s) : StoreInv (changeBalance s u d) := by
  obtain ⟨hb, hpr, hpu, hnd⟩ := h
  refine ⟨?_, ?_, ?_, ?_⟩
  · rcases changeBalance_balances_cases s u d with he | he <;> rw [he]
    · exact hb
    · intro q hq
      rcases List.mem_map.mp hq with ⟨p, hp, hpe⟩
      by_cases hpu' : (p.1 == u) = true
      · rw [if_pos hpu'] at hpe
        rw [← hpe]
        exact add_nonneg (hb p hp) hd
      · rw [if_neg hpu'] at hpe
        rw [← hpe]
        exact hb p hp
  · rw [changeBalance_privateCheques]; exact hpr
  · rw [changeBalance_publicCheques]; exact hpu
  · rw [changeBalance_keys]; exact hnd

theorem storeInv_changeBalance_debit (s : AppState) (u : String) (a : ℚ)
    (hle : a ≤ getBalance s u) (h : StoreInv s) : StoreInv (changeBalance s u (-a)) := by
  obtain ⟨hb, hpr, hpu, hnd⟩ := h
  refine ⟨?_, ?_, ?_, ?_⟩
  · rcases changeBalance_balances_cases s u (-a) with he | he <;> rw [he]
    · exact hb
    · intro q hq
      rcases List.mem_map.mp hq with ⟨p, hp, hpe⟩
      by_cases hpu' : (p.1 == u) = true
      · rw [if_pos hpu'] at hpe
        rw [← hpe]
        have hk : p.1 = u := eq_of_beq hpu'
        have hlk : lookupEntry s.balances u = some p.2 :=
          lookupEntry_eq_of_mem_nodup hnd (by rw [← hk]; exact hp)
        have hbal : getBalance s u = p.2 := by simp [getBalance, hlk]
        have hap : a ≤ p.2 := hbal ▸ hle
        show 0 ≤ p.2 + (-a)
        linarith
      · rw [if_neg hpu'] at hpe
        rw [← hpe]
        exact hb p hp
  · rw [changeBalance_privateCheques]; exact hpr
  · rw [changeBalance_publicCheques]; exact hpu
  · rw [changeBalance_keys]; exact hnd

theorem amounts_pos_updateEntry_deactivate {α : Type} [BEq α]
    {l l2 : List (α × Cheque)} {k : α}
    (hup : updateEntry l k deactivate = some l2)
    (h : ∀ p ∈ l, 0 < p.2.amount) : ∀ p ∈ l2, 0 < p.2.amount := by
  intro p hp
  rcases mem_updateEntry hup hp with hm | ⟨q, hq, he⟩
  · exact h p hm
  · rw [he]; exact h q hq

theorem amounts_pos_updateEntry_getD {α : Type} [BEq α]
    {l : List (α × Cheque)} (k : α)
    (h : ∀ p ∈ l, 0 < p.2.amount) :
    ∀ p ∈ (updateEntry l k deactivate).getD l, 0 < p.2.amount := by
  cases hup : updateEntry l k deactivate with
  | none => simpa using h
  | some l2 =>
    rw [Option.getD_some]
    exact amounts_pos_updateEntry_deactivate hup h

theorem storeInv_create (s : AppState) (u : String) (a : ℚ) (anon : Bool) (sid : String)
    (h : StoreInv s) : StoreInv (handleCreateCheque s u a anon sid).1 := by
  unfold handleCreateCheque
  split
  · exact h
  · split
    · exact h
    · rename_i h1 h2
      dsimp only
      have hpos : 0 < a := not_le.mp h1
      have hle : a ≤ getBalance s u := not_lt.mp h2
      obtain ⟨hb1, hpr1, hpu1, hnd1⟩ := storeInv_changeBalance_debit s u a hle h
      refine ⟨hb1, ?_, ?_, hnd1⟩
      · intro p hp
        rcases mem_setEntry hp with hm | he
        · exact hpr1 p hm
        · rw [he]; exact hpos
      · intro p hp
        rcases mem_setEntry hp with hm | he
        · exact hpu1 p hm
        · rw [he]; exact hpos

theorem storeInv_activate (s : AppState) (u code : String)
    (h : StoreInv s) : StoreInv (handleActivateCheque s u code).1 := by
  unfold handleActivateCheque
  split
  · exact h
  · dsimp only
    split
    · exact h
    · split
      · exact h
      · rename_i fid ch hfind
        split
        · exact h
        · split
          · refine ⟨h.1, h.2.1, ?_, h.2.2.2⟩
            exact amounts_pos_updateEntry_getD fid h.2.2.1
          · rename_i priv hup
            have hmem : (fid, ch) ∈ s.publicCheques :=
              List.mem_of_mem_filter (List.mem_of_find?_eq_some hfind)
            apply storeInv_changeBalance_credit
            · exact le_of_lt (h.2.2.1 _ hmem)
            · refine ⟨h.1, ?_, ?_, h.2.2.2⟩
              · exact amounts_pos_updateEntry_deactivate hup h.2.1
              · exact amounts_pos_updateEntry_getD fid h.2.2.1

theorem storeInv_delete (s : AppState) (u cid : String) (amt : ℚ) (hamt : 0 ≤ amt)
    (h : StoreInv s) : StoreInv (handleDeleteCheque s u cid amt).1 := by
  unfold handleDeleteCheque
  split
  · exact h
  · rename_i priv hup
    dsimp only
    split
    · refine ⟨h.1, ?_, h.2.2.1, h.2.2.2⟩
      exact amounts_pos_updateEntry_deactivate hup h.2.1
    · rename_i pub hpub
      apply storeInv_changeBalance_credit
      · exact hamt
      · refine ⟨h.1, ?_, ?_, h.2.2.2⟩
        · exact amounts_pos_updateEntry_deactivate hup h.2.1
        · exact amounts_pos_updateEntry_deactivate hpub h.2.2.1

theorem storeInv_newUser (s : AppState) (u : String)
    (h : StoreInv s) : StoreInv (newUserStep s u) := by
  unfold newUserStep
  split
  · exact h
  · rename_i hnone
    have hlk : lookupEntry s.balances u = none := Option.not_isSome_iff_eq_none.mp hnone
    have hnotmem : u ∉ s.balances.map Prod.fst := not_mem_keys_of_lookupEntry_none hlk
    refine ⟨?_, h.2.1, h.2.2.1, ?_⟩
    · intro p hp
      rcases List.mem_append.mp hp with hm | hm
      · exact h.1 p hm
      · simp only [List.mem_singleton] at hm
        simp [hm]
    · rw [List.map_append, List.nodup_append]
      refine ⟨h.2.2.2, List.nodup_singleton u, ?_⟩
      intro x hx hx2
      simp only [List.map_cons, List.map_nil, List.mem_singleton] at hx2
      subst hx2
      exact hnotmem hx

theorem storeInv_runOp (s : AppState) (op : Op) (h : StoreInv s) :
    StoreInv (runOp s op) := by
  cases op with
  | newUser u => exact storeInv_newUser s u h
  | issue u a anon sid => exact storeInv_create s u a anon sid h
  | redeem u code => exact storeInv_activate s u code h
  | cancel u cid =>
    simp only [runOp]
    cases hlk : lookupEntry s.privateCheques (u, cid) with
    | none => exact h
    | some ch =>
      have hpos : 0 < ch.amount := h.2.1 _ (mem_of_lookupEntry_some hlk)
      exact storeInv_delete s u cid ch.amount (le_of_lt hpos) h

theorem storeInv_runOps (ops : List Op) (s : AppState) (h : StoreInv s) :
    StoreInv (runOps s ops) := by
  induction ops generalizing s with
  | nil => exact h
  | cons op t ih =>
    simp only [runOps, List.foldl_cons]
    exact ih (runOp s op) (storeInv_runOp s op h)

/-- C9: balances never go negative. Starting from the empty store, after
every sequence of first-sighting profile creations and issue, redeem and
cancel commands, every user's stored balance satisfies `0 ≤ balance`. -/
theorem balances_nonneg_after_ops (ops : List Op) (u : String) (b : ℚ)
    (h : (u, b) ∈ (runOps initState ops).balances) : 0 ≤ b := by
  have hinv : StoreInv (runOps initState ops) :=
    storeInv_runOps ops initState
      ⟨by simp [initState], by simp [initState], by simp [initState], by simp [initState]⟩
  exact hinv.1 (u, b) h

/-- Witness for C9: after alice appears, issues a cheque for 4 out of a
10 top-up-free start of 0 — here simply after her profile creation and a
rejected issue (insufficient funds) — her stored balance 0 is
non-negative. -/
theorem balances_nonneg_after_ops_witness :
    ("alice", (0 : ℚ)) ∈
      (runOps initState [Op.newUser "alice", Op.issue "alice" 4 false "abc"]).balances ∧
    (0 : ℚ) ≤ 0 := by
  refine ⟨?_, balances_nonneg_after_ops [Op.newUser "alice", Op.issue "alice" 4 false "abc"]
    "alice" 0 ?_⟩ <;> decide
